import Mathlib

/-!
Shallow embedding of `contracts/BiometricRegistry.sol` (BiometricRegistry
contract). Addresses and bytes32 values are modelled as `Nat` (0 is the zero
address / zero hash), `bytes` as `List Nat`, `string` as `String`.
Solidity mappings are total functions with the zero-value default; a revert is
an `Except.error`; `block.timestamp` and `msg.sender` are explicit parameters.
The `require` checks are translated in source order (modifiers first, then the
body's requires), so which error fires on a given input matches the contract.
-/

abbrev Addr := Nat
abbrev B32 := Nat

/-- BiometricType enum from the contract (FACIAL is the zero value). -/
inductive BiometricType where
  | FACIAL
  | FINGERPRINT
  | IRIS
  | MULTIMODAL
deriving DecidableEq

/-- Subject struct: a registered identity with its fuzzy-commitment pair. -/
structure Subject where
  subjectId : B32
  commitmentHash : B32
  delta : List Nat
  templateCID : String
  biometricType : BiometricType
  enrolledBy : Addr
  enrolledAt : Nat
  updatedAt : Nat
  isActive : Bool
deriving DecidableEq

/-- Solidity zero-value Subject (mapping default). -/
def Subject.zero : Subject :=
  { subjectId := 0, commitmentHash := 0, delta := [], templateCID := "",
    biometricType := BiometricType.FACIAL, enrolledBy := 0, enrolledAt := 0,
    updatedAt := 0, isActive := false }

/-- Node struct: an Enrollment Center (EC) or Authentication Center (AC). -/
structure Node where
  nodeId : Nat
  name : String
  nodeAddress : Addr
  isEnrollmentCenter : Bool
  isAuthorized : Bool
  registeredAt : Nat
  enrollmentCount : Nat
deriving DecidableEq

/-- Solidity zero-value Node (mapping default). -/
def Node.zero : Node :=
  { nodeId := 0, name := "", nodeAddress := 0, isEnrollmentCenter := false,
    isAuthorized := false, registeredAt := 0, enrollmentCount := 0 }

/-- AuthRecord struct: one audit entry for an authentication attempt. -/
structure AuthRecord where
  subjectId : B32
  verifier : Addr
  success : Bool
  reason : String
  timestamp : Nat
deriving DecidableEq

/-- Solidity zero-value AuthRecord (mapping default). -/
def AuthRecord.zero : AuthRecord :=
  { subjectId := 0, verifier := 0, success := false, reason := "", timestamp := 0 }

/-- The contract's storage: counters, mappings, and enumeration arrays. -/
structure RegistryState where
  owner : Addr
  subjectCount : Nat
  nodeCount : Nat
  authRecordCount : Nat
  subjects : B32 → Subject
  nodes : Addr → Node
  authRecords : Nat → AuthRecord
  subjectExistsMap : B32 → Bool
  nodeEnrollments : Addr → List B32
  allSubjectIds : List B32
  allNodeAddresses : List Addr

/-- Point update of a mapping (Solidity storage write). -/
def upd {V : Type} (m : Nat → V) (k : Nat) (v : V) : Nat → V :=
  fun j => if j = k then v else m j

/-- Revert reasons, one per `require` message in the contract. The spec's
`Unauthorized` kind covers both modifier failures (see `RegError.isUnauthorized`). -/
inductive RegError where
  | notOwner
  | notAuthorizedNode
  | notEnrollmentCenter
  | subjectNotFound
  | subjectNotActive
  | invalidSubjectId
  | invalidCommitmentHash
  | subjectAlreadyExists
  | invalidAddress
  | nodeExists
  | nodeNotFound
  | cannotModifyOwner
  | invalidNewOwner
deriving DecidableEq

/-- The spec's `Unauthorized` error kind: the caller lacks the required role.
Covers both the `onlyAuthorizedNode` and the `onlyEnrollmentCenter` modifier reverts. -/
def RegError.isUnauthorized : RegError → Bool
  | RegError.notAuthorizedNode => true
  | RegError.notEnrollmentCenter => true
  | _ => false

/-- The `onlyAuthorizedNode` modifier's condition. -/
def isAuthNode (s : RegistryState) (a : Addr) : Bool :=
  (s.nodes a).isAuthorized

/-- The `onlyEnrollmentCenter` modifier's condition. -/
def canEnroll (s : RegistryState) (a : Addr) : Bool :=
  (s.nodes a).isAuthorized && (s.nodes a).isEnrollmentCenter

/-- The constructor: deployer becomes owner and the Main Enrollment Center. -/
def initialState (deployer : Addr) (now : Nat) : RegistryState :=
  { owner := deployer
    subjectCount := 0
    nodeCount := 1
    authRecordCount := 0
    subjects := fun _ => Subject.zero
    nodes := upd (fun _ => Node.zero) deployer
      { nodeId := 1, name := "Main Enrollment Center", nodeAddress := deployer,
        isEnrollmentCenter := true, isAuthorized := true, registeredAt := now,
        enrollmentCount := 0 }
    authRecords := fun _ => AuthRecord.zero
    subjectExistsMap := fun _ => false
    nodeEnrollments := fun _ => []
    allSubjectIds := []
    allNodeAddresses := [deployer] }

/-- enrollSubject: EC-only; requires nonzero id and hash (checked before the
duplicate check, in source order) and that the id is fresh. -/
def enrollSubject (s : RegistryState) (sender : Addr) (now : Nat)
    (subjectId commitmentHash : B32) (delta : List Nat) (templateCID : String)
    (biometricType : BiometricType) : Except RegError RegistryState :=
  if canEnroll s sender then
    if subjectId = 0 then Except.error RegError.invalidSubjectId
    else if commitmentHash = 0 then Except.error RegError.invalidCommitmentHash
    else if s.subjectExistsMap subjectId then Except.error RegError.subjectAlreadyExists
    else
      Except.ok { s with
        subjects := upd s.subjects subjectId
          { subjectId := subjectId, commitmentHash := commitmentHash,
            delta := delta, templateCID := templateCID,
            biometricType := biometricType, enrolledBy := sender,
            enrolledAt := now, updatedAt := now, isActive := true }
        subjectExistsMap := upd s.subjectExistsMap subjectId true
        allSubjectIds := s.allSubjectIds ++ [subjectId]
        nodeEnrollments := upd s.nodeEnrollments sender
          (s.nodeEnrollments sender ++ [subjectId])
        nodes := upd s.nodes sender
          { s.nodes sender with enrollmentCount := (s.nodes sender).enrollmentCount + 1 }
        subjectCount := s.subjectCount + 1 }
  else Except.error RegError.notEnrollmentCenter

/-- updateSubject: EC-only; subject must exist and be active; nonzero hash. -/
def updateSubject (s : RegistryState) (sender : Addr) (now : Nat)
    (subjectId commitmentHash : B32) (delta : List Nat) (templateCID : String) :
    Except RegError RegistryState :=
  if canEnroll s sender then
    if s.subjectExistsMap subjectId then
      if (s.subjects subjectId).isActive then
        if commitmentHash = 0 then Except.error RegError.invalidCommitmentHash
        else
          Except.ok { s with
            subjects := upd s.subjects subjectId
              { s.subjects subjectId with
                commitmentHash := commitmentHash, delta := delta,
                templateCID := templateCID, updatedAt := now } }
      else Except.error RegError.subjectNotActive
    else Except.error RegError.subjectNotFound
  else Except.error RegError.notEnrollmentCenter

/-- deactivateSubject: EC-only; requires existence only (no activity check). -/
def deactivateSubject (s : RegistryState) (sender : Addr) (now : Nat)
    (subjectId : B32) : Except RegError RegistryState :=
  if canEnroll s sender then
    if s.subjectExistsMap subjectId then
      Except.ok { s with
        subjects := upd s.subjects subjectId
          { s.subjects subjectId with isActive := false, updatedAt := now } }
    else Except.error RegError.subjectNotFound
  else Except.error RegError.notEnrollmentCenter

/-- reactivateSubject: EC-only; requires existence only. -/
def reactivateSubject (s : RegistryState) (sender : Addr) (now : Nat)
    (subjectId : B32) : Except RegError RegistryState :=
  if canEnroll s sender then
    if s.subjectExistsMap subjectId then
      Except.ok { s with
        subjects := upd s.subjects subjectId
          { s.subjects subjectId with isActive := true, updatedAt := now } }
    else Except.error RegError.subjectNotFound
  else Except.error RegError.notEnrollmentCenter

/-- getSubject: authorized-node view; subject must exist and be active. -/
def getSubject (s : RegistryState) (sender : Addr) (subjectId : B32) :
    Except RegError (B32 × B32 × List Nat × String × BiometricType × Nat) :=
  if isAuthNode s sender then
    if s.subjectExistsMap subjectId then
      if (s.subjects subjectId).isActive then
        let subj := s.subjects subjectId
        Except.ok (subj.subjectId, subj.commitmentHash, subj.delta,
          subj.templateCID, subj.biometricType, subj.enrolledAt)
      else Except.error RegError.subjectNotActive
    else Except.error RegError.subjectNotFound
  else Except.error RegError.notAuthorizedNode

/-- checkSubjectStatus: unrestricted view, returns (exists, isActive). -/
def checkSubjectStatus (s : RegistryState) (subjectId : B32) : Bool × Bool :=
  (s.subjectExistsMap subjectId, (s.subjects subjectId).isActive)

/-- verifyCommitment: authorized-node view; subject must exist and be active;
returns whether the stored commitmentHash equals the provided one. -/
def verifyCommitment (s : RegistryState) (sender : Addr)
    (subjectId providedHash : B32) : Except RegError Bool :=
  if isAuthNode s sender then
    if s.subjectExistsMap subjectId then
      if (s.subjects subjectId).isActive then
        Except.ok ((s.subjects subjectId).commitmentHash == providedHash)
      else Except.error RegError.subjectNotActive
    else Except.error RegError.subjectNotFound
  else Except.error RegError.notAuthorizedNode

/-- logAuthentication: authorized-node only; appends the next AuthRecord at
key `_authRecordCount + 1` after incrementing the counter. -/
def logAuthentication (s : RegistryState) (sender : Addr) (now : Nat)
    (subjectId : B32) (success : Bool) (reason : String) :
    Except RegError RegistryState :=
  if isAuthNode s sender then
    Except.ok { s with
      authRecordCount := s.authRecordCount + 1
      authRecords := upd s.authRecords (s.authRecordCount + 1)
        { subjectId := subjectId, verifier := sender, success := success,
          reason := reason, timestamp := now } }
  else Except.error RegError.notAuthorizedNode

/-- getAuthRecord: authorized-node view; zero record when id out of range. -/
def getAuthRecord (s : RegistryState) (sender : Addr) (recordId : Nat) :
    Except RegError AuthRecord :=
  if isAuthNode s sender then Except.ok (s.authRecords recordId)
  else Except.error RegError.notAuthorizedNode

/-- registerNode: EC-only; address nonzero and not yet registered; the new
node is created with isAuthorized := true regardless of the EC flag. -/
def registerNode (s : RegistryState) (sender : Addr) (now : Nat)
    (nodeAddress : Addr) (name : String) (isEC : Bool) :
    Except RegError RegistryState :=
  if canEnroll s sender then
    if nodeAddress = 0 then Except.error RegError.invalidAddress
    else if (s.nodes nodeAddress).nodeAddress ≠ 0 then Except.error RegError.nodeExists
    else
      Except.ok { s with
        nodeCount := s.nodeCount + 1
        nodes := upd s.nodes nodeAddress
          { nodeId := s.nodeCount + 1, name := name, nodeAddress := nodeAddress,
            isEnrollmentCenter := isEC, isAuthorized := true,
            registeredAt := now, enrollmentCount := 0 }
        allNodeAddresses := s.allNodeAddresses ++ [nodeAddress] }
  else Except.error RegError.notEnrollmentCenter

/-- setNodeAuthorization: EC-only; node must be present (nonzero stored
address) and must not be the current owner. -/
def setNodeAuthorization (s : RegistryState) (sender : Addr)
    (nodeAddress : Addr) (authorized : Bool) : Except RegError RegistryState :=
  if canEnroll s sender then
    if (s.nodes nodeAddress).nodeAddress = 0 then Except.error RegError.nodeNotFound
    else if nodeAddress = s.owner then Except.error RegError.cannotModifyOwner
    else
      Except.ok { s with
        nodes := upd s.nodes nodeAddress
          { s.nodes nodeAddress with isAuthorized := authorized } }
  else Except.error RegError.notEnrollmentCenter

/-- transferOwnership: owner-only, nonzero newOwner. The three storage writes
of the body run in source order: copy the old owner's record to newOwner, fix
its address field, then delete the old owner's record; finally push newOwner
onto the enumeration (the old address is not removed). -/
def transferOwnership (s : RegistryState) (sender : Addr) (newOwner : Addr) :
    Except RegError RegistryState :=
  if sender = s.owner then
    if newOwner = 0 then Except.error RegError.invalidNewOwner
    else
      let previousOwner := s.owner
      let nodes1 := upd s.nodes newOwner (s.nodes previousOwner)
      let nodes2 := upd nodes1 newOwner { nodes1 newOwner with nodeAddress := newOwner }
      let nodes3 := upd nodes2 previousOwner Node.zero
      Except.ok { s with
        owner := newOwner
        nodes := nodes3
        allNodeAddresses := s.allNodeAddresses ++ [newOwner] }
  else Except.error RegError.notOwner

/-- Public view totalSubjects. -/
def totalSubjects (s : RegistryState) : Nat := s.subjectCount

/-- Public view totalAuthRecords. -/
def totalAuthRecords (s : RegistryState) : Nat := s.authRecordCount

/-- One externally callable mutating operation together with its caller and
the block timestamp at which it runs. -/
inductive Op where
  | enroll (sender now : Nat) (subjectId commitmentHash : B32)
      (delta : List Nat) (templateCID : String) (bt : BiometricType)
  | update (sender now : Nat) (subjectId commitmentHash : B32)
      (delta : List Nat) (templateCID : String)
  | deactivate (sender now : Nat) (subjectId : B32)
  | reactivate (sender now : Nat) (subjectId : B32)
  | logAuth (sender now : Nat) (subjectId : B32) (success : Bool) (reason : String)
  | regNode (sender now : Nat) (nodeAddress : Addr) (name : String) (isEC : Bool)
  | setAuth (sender : Nat) (nodeAddress : Addr) (authorized : Bool)
  | transferOwn (sender : Nat) (newOwner : Addr)

/-- Apply one operation; a revert leaves the state unchanged (Solidity
all-or-nothing execution). -/
def step (s : RegistryState) : Op → RegistryState
  | Op.enroll sender now id h d cid bt =>
      match enrollSubject s sender now id h d cid bt with
      | Except.ok s' => s'
      | Except.error _ => s
  | Op.update sender now id h d cid =>
      match updateSubject s sender now id h d cid with
      | Except.ok s' => s'
      | Except.error _ => s
  | Op.deactivate sender now id =>
      match deactivateSubject s sender now id with
      | Except.ok s' => s'
      | Except.error _ => s
  | Op.reactivate sender now id =>
      match reactivateSubject s sender now id with
      | Except.ok s' => s'
      | Except.error _ => s
  | Op.logAuth sender now id ok r =>
      match logAuthentication s sender now id ok r with
      | Except.ok s' => s'
      | Except.error _ => s
  | Op.regNode sender now a n e =>
      match registerNode s sender now a n e with
      | Except.ok s' => s'
      | Except.error _ => s
  | Op.setAuth sender a b =>
      match setNodeAuthorization s sender a b with
      | Except.ok s' => s'
      | Except.error _ => s
  | Op.transferOwn sender a =>
      match transferOwnership s sender a with
      | Except.ok s' => s'
      | Except.error _ => s

/-- Apply a sequence of operations in order. -/
def execOps (s : RegistryState) (ops : List Op) : RegistryState :=
  ops.foldl step s

theorem upd_same {V : Type} (m : Nat → V) (k : Nat) (v : V) : upd m k v k = v := by
  simp [upd]

theorem upd_other {V : Type} (m : Nat → V) (k j : Nat) (v : V) (h : j ≠ k) :
    upd m k v j = m j := by
  simp [upd, h]

def emptyStr : String := ""

/-- Deployment by address 1 at time 0. -/
def st0 : RegistryState := initialState 1 0

/-- st0 after the owner enrolls subject 7 with commitment hash 5. -/
def stA : RegistryState := step st0 (Op.enroll 1 1 7 5 [3] emptyStr BiometricType.FACIAL)

/-- stA after the owner logs one authentication attempt. -/
def stB : RegistryState := step stA (Op.logAuth 1 2 7 true emptyStr)

/-- stA after the owner registers address 2 as a second enrollment center. -/
def stC : RegistryState := step stA (Op.regNode 1 2 2 emptyStr true)

example : canEnroll stA 1 = true := by decide
example : stA.subjectExistsMap 7 = true := by decide
example : (stA.subjects 7).commitmentHash = 5 := by decide
example : stB.authRecordCount = 1 := by decide
example : canEnroll stC 2 = true := by decide
example : (stC.subjects 7).enrolledBy = 1 := by decide

theorem updateSubject_fields (s s' : RegistryState) (c t sid h : Nat)
    (d : List Nat) (cid : String)
    (heq : updateSubject s c t sid h d cid = Except.ok s') :
    s'.authRecords = s.authRecords ∧ s'.authRecordCount = s.authRecordCount ∧
    s'.subjectExistsMap = s.subjectExistsMap := by
  unfold updateSubject at heq
  repeat' split at heq
  all_goals first
    | exact Except.noConfusion heq
    | (injection heq with h2; subst h2; exact ⟨rfl, rfl, rfl⟩)

theorem enrollSubject_fields (s s' : RegistryState) (c t sid h : Nat)
    (d : List Nat) (cid : String) (bt : BiometricType)
    (heq : enrollSubject s c t sid h d cid bt = Except.ok s') :
    s'.authRecords = s.authRecords ∧ s'.authRecordCount = s.authRecordCount ∧
    s'.subjectExistsMap = upd s.subjectExistsMap sid true := by
  unfold enrollSubject at heq
  repeat' split at heq
  all_goals first
    | exact Except.noConfusion heq
    | (injection heq with h2; subst h2; exact ⟨rfl, rfl, rfl⟩)

theorem deactivateSubject_fields (s s' : RegistryState) (c t sid : Nat)
    (heq : deactivateSubject s c t sid = Except.ok s') :
    s'.authRecords = s.authRecords ∧ s'.authRecordCount = s.authRecordCount ∧
    s'.subjectExistsMap = s.subjectExistsMap := by
  unfold deactivateSubject at heq
  repeat' split at heq
  all_goals first
    | exact Except.noConfusion heq
    | (injection heq with h2; subst h2; exact ⟨rfl, rfl, rfl⟩)

theorem reactivateSubject_fields (s s' : RegistryState) (c t sid : Nat)
    (heq : reactivateSubject s c t sid = Except.ok s') :
    s'.authRecords = s.authRecords ∧ s'.authRecordCount = s.authRecordCount ∧
    s'.subjectExistsMap = s.subjectExistsMap := by
  unfold reactivateSubject at heq
  repeat' split at heq
  all_goals first
    | exact Except.noConfusion heq
    | (injection heq with h2; subst h2; exact ⟨rfl, rfl, rfl⟩)

theorem logAuthentication_fields (s s' : RegistryState) (c t sid : Nat)
    (ok : Bool) (r : String)
    (heq : logAuthentication s c t sid ok r = Except.ok s') :
    s'.authRecordCount = s.authRecordCount + 1 ∧
    s'.authRecords = upd s.authRecords (s.authRecordCount + 1)
      { subjectId := sid, verifier := c, success := ok, reason := r, timestamp := t } ∧
    s'.subjectExistsMap = s.subjectExistsMap := by
  unfold logAuthentication at heq
  repeat' split at heq
  all_goals first
    | exact Except.noConfusion heq
    | (injection heq with h2; subst h2; exact ⟨rfl, rfl, rfl⟩)

theorem registerNode_fields (s s' : RegistryState) (c t a : Nat)
    (n : String) (e : Bool)
    (heq : registerNode s c t a n e = Except.ok s') :
    s'.authRecords = s.authRecords ∧ s'.authRecordCount = s.authRecordCount ∧
    s'.subjectExistsMap = s.subjectExistsMap := by
  unfold registerNode at heq
  repeat' split at heq
  all_goals first
    | exact Except.noConfusion heq
    | (injection heq with h2; subst h2; exact ⟨rfl, rfl, rfl⟩)

theorem setNodeAuthorization_fields (s s' : RegistryState) (c a : Nat) (b : Bool)
    (heq : setNodeAuthorization s c a b = Except.ok s') :
    s'.authRecords = s.authRecords ∧ s'.authRecordCount = s.authRecordCount ∧
    s'.subjectExistsMap = s.subjectExistsMap := by
  unfold setNodeAuthorization at heq
  repeat' split at heq
  all_goals first
    | exact Except.noConfusion heq
    | (injection heq with h2; subst h2; exact ⟨rfl, rfl, rfl⟩)

theorem transferOwnership_fields (s s' : RegistryState) (c a : Nat)
    (heq : transferOwnership s c a = Except.ok s') :
    s'.authRecords = s.authRecords ∧ s'.authRecordCount = s.authRecordCount ∧
    s'.subjectExistsMap = s.subjectExistsMap := by
  unfold transferOwnership at heq
  repeat' split at heq
  all_goals first
    | exact Except.noConfusion heq
    | (injection heq with h2; subst h2; exact ⟨rfl, rfl, rfl⟩)

theorem step_authRecords_preserved (s : RegistryState) (op : Op) (i : Nat)
    (hi : i ≤ s.authRecordCount) : (step s op).authRecords i = s.authRecords i := by
  cases op <;> simp only [step] <;> split
  case enroll.h_1 _ _ _ _ _ _ _ s' heq =>
    exact congrFun (enrollSubject_fields _ _ _ _ _ _ _ _ _ heq).1 i
  case enroll.h_2 => rfl
  case update.h_1 _ _ _ _ _ _ s' heq =>
    exact congrFun (updateSubject_fields _ _ _ _ _ _ _ _ heq).1 i
  case update.h_2 => rfl
  case deactivate.h_1 _ _ _ s' heq =>
    exact congrFun (deactivateSubject_fields _ _ _ _ _ heq).1 i
  case deactivate.h_2 => rfl
  case reactivate.h_1 _ _ _ s' heq =>
    exact congrFun (reactivateSubject_fields _ _ _ _ _ heq).1 i
  case reactivate.h_2 => rfl
  case logAuth.h_1 _ _ _ _ _ s' heq =>
    have h3 := (logAuthentication_fields _ _ _ _ _ _ _ heq).2.1
    rw [h3, upd_other]
    omega
  case logAuth.h_2 => rfl
  case regNode.h_1 _ _ _ _ _ s' heq =>
    exact congrFun (registerNode_fields _ _ _ _ _ _ _ heq).1 i
  case regNode.h_2 => rfl
  case setAuth.h_1 _ _ _ s' heq =>
    exact congrFun (setNodeAuthorization_fields _ _ _ _ _ heq).1 i
  case setAuth.h_2 => rfl
  case transferOwn.h_1 _ _ s' heq =>
    exact congrFun (transferOwnership_fields _ _ _ _ heq).1 i
  case transferOwn.h_2 => rfl

theorem step_authRecordCount (s : RegistryState) (op : Op) :
    (step s op).authRecordCount = s.authRecordCount ∨
    (step s op).authRecordCount = s.authRecordCount + 1 := by
  cases op <;> simp only [step] <;> split
  case enroll.h_1 _ _ _ _ _ _ _ s' heq =>
    exact Or.inl (enrollSubject_fields _ _ _ _ _ _ _ _ _ heq).2.1
  case enroll.h_2 => exact Or.inl rfl
  case update.h_1 _ _ _ _ _ _ s' heq =>
    exact Or.inl (updateSubject_fields _ _ _ _ _ _ _ _ heq).2.1
  case update.h_2 => exact Or.inl rfl
  case deactivate.h_1 _ _ _ s' heq =>
    exact Or.inl (deactivateSubject_fields _ _ _ _ _ heq).2.1
  case deactivate.h_2 => exact Or.inl rfl
  case reactivate.h_1 _ _ _ s' heq =>
    exact Or.inl (reactivateSubject_fields _ _ _ _ _ heq).2.1
  case reactivate.h_2 => exact Or.inl rfl
  case logAuth.h_1 _ _ _ _ _ s' heq =>
    exact Or.inr (logAuthentication_fields _ _ _ _ _ _ _ heq).1
  case logAuth.h_2 => exact Or.inl rfl
  case regNode.h_1 _ _ _ _ _ s' heq =>
    exact Or.inl (registerNode_fields _ _ _ _ _ _ _ heq).2.1
  case regNode.h_2 => exact Or.inl rfl
  case setAuth.h_1 _ _ _ s' heq =>
    exact Or.inl (setNodeAuthorization_fields _ _ _ _ _ heq).2.1
  case setAuth.h_2 => exact Or.inl rfl
  case transferOwn.h_1 _ _ s' heq =>
    exact Or.inl (transferOwnership_fields _ _ _ _ heq).2.1
  case transferOwn.h_2 => exact Or.inl rfl

theorem step_existsTrue (s : RegistryState) (op : Op) (id : B32)
    (h : s.subjectExistsMap id = true) : (step s op).subjectExistsMap id = true := by
  cases op <;> simp only [step] <;> split
  case enroll.h_1 _ _ sid _ _ _ _ _ s' heq =>
    have h3 := (enrollSubject_fields _ _ _ _ _ _ _ _ _ heq).2.2
    rw [h3, upd]
    by_cases hcase : id = sid <;> simp [hcase, h]
  case enroll.h_2 => exact h
  case update.h_1 _ _ _ _ _ _ s' heq =>
    rw [(updateSubject_fields _ _ _ _ _ _ _ _ heq).2.2]
    exact h
  case update.h_2 => exact h
  case deactivate.h_1 _ _ _ s' heq =>
    rw [(deactivateSubject_fields _ _ _ _ _ heq).2.2]
    exact h
  case deactivate.h_2 => exact h
  case reactivate.h_1 _ _ _ s' heq =>
    rw [(reactivateSubject_fields _ _ _ _ _ heq).2.2]
    exact h
  case reactivate.h_2 => exact h
  case logAuth.h_1 _ _ _ _ _ s' heq =>
    rw [(logAuthentication_fields _ _ _ _ _ _ _ heq).2.2]
    exact h
  case logAuth.h_2 => exact h
  case regNode.h_1 _ _ _ _ _ s' heq =>
    rw [(registerNode_fields _ _ _ _ _ _ _ heq).2.2]
    exact h
  case regNode.h_2 => exact h
  case setAuth.h_1 _ _ _ s' heq =>
    rw [(setNodeAuthorization_fields _ _ _ _ _ heq).2.2]
    exact h
  case setAuth.h_2 => exact h
  case transferOwn.h_1 _ _ s' heq =>
    rw [(transferOwnership_fields _ _ _ _ heq).2.2]
    exact h
  case transferOwn.h_2 => exact h

theorem execOps_authRecordCount_mono (ops : List Op) (s : RegistryState) :
    s.authRecordCount ≤ (execOps s ops).authRecordCount := by
  induction ops generalizing s with
  | nil => exact Nat.le_refl _
  | cons op ops ih =>
      have h1 := step_authRecordCount s op
      have h2 := ih (step s op)
      have : s.authRecordCount ≤ (step s op).authRecordCount := by omega
      calc s.authRecordCount ≤ (step s op).authRecordCount := this
        _ ≤ (execOps (step s op) ops).authRecordCount := h2
        _ = (execOps s (op :: ops)).authRecordCount := rfl

theorem execOps_authRecords_preserved (ops : List Op) (s : RegistryState) (i : Nat)
    (hi : i ≤ s.authRecordCount) :
    (execOps s ops).authRecords i = s.authRecords i := by
  induction ops generalizing s with
  | nil => rfl
  | cons op ops ih =>
      have h1 := step_authRecordCount s op
      have h2 : i ≤ (step s op).authRecordCount := by omega
      calc (execOps s (op :: ops)).authRecords i
          = (execOps (step s op) ops).authRecords i := rfl
        _ = (step s op).authRecords i := ih (step s op) h2
        _ = s.authRecords i := step_authRecords_preserved s op i hi

theorem deactivateSubject_ok (s : RegistryState) (c : Addr) (t : Nat) (id : B32)
    (hc : canEnroll s c = true) (hex : s.subjectExistsMap id = true) :
    deactivateSubject s c t id = Except.ok { s with
      subjects := upd s.subjects id
        { s.subjects id with isActive := false, updatedAt := t } } := by
  simp [deactivateSubject, hc, hex]

theorem reactivateSubject_ok (s : RegistryState) (c : Addr) (t : Nat) (id : B32)
    (hc : canEnroll s c = true) (hex : s.subjectExistsMap id = true) :
    reactivateSubject s c t id = Except.ok { s with
      subjects := upd s.subjects id
        { s.subjects id with isActive := true, updatedAt := t } } := by
  simp [reactivateSubject, hc, hex]

theorem enrollSubject_ok (s : RegistryState) (c : Addr) (t : Nat)
    (id h : B32) (d : List Nat) (cid : String) (bt : BiometricType)
    (hc : canEnroll s c = true) (hid : id ≠ 0) (hh : h ≠ 0)
    (hex : s.subjectExistsMap id = false) :
    enrollSubject s c t id h d cid bt = Except.ok { s with
      subjects := upd s.subjects id
        { subjectId := id, commitmentHash := h, delta := d, templateCID := cid,
          biometricType := bt, enrolledBy := c, enrolledAt := t, updatedAt := t,
          isActive := true }
      subjectExistsMap := upd s.subjectExistsMap id true
      allSubjectIds := s.allSubjectIds ++ [id]
      nodeEnrollments := upd s.nodeEnrollments c (s.nodeEnrollments c ++ [id])
      nodes := upd s.nodes c
        { s.nodes c with enrollmentCount := (s.nodes c).enrollmentCount + 1 }
      subjectCount := s.subjectCount + 1 } := by
  simp [enrollSubject, hc, hid, hh, hex]

/-- C1: an authorized enrollment center enrolling a fresh subject with nonzero
id and nonzero commitment hash succeeds; the subject is created active, an
immediately following checkSubjectStatus returns (true, true), and the total
subject counter and the caller's enrollmentCount each grow by exactly one. -/
theorem C1_enroll_then_status_ok (s : RegistryState) (c : Addr) (t : Nat)
    (id h : B32) (d : List Nat) (cid : String) (bt : BiometricType)
    (hc : canEnroll s c = true) (hid : id ≠ 0) (hh : h ≠ 0)
    (hex : s.subjectExistsMap id = false) :
    ∃ s', enrollSubject s c t id h d cid bt = Except.ok s' ∧
      checkSubjectStatus s' id = (true, true) ∧
      (s'.subjects id).isActive = true ∧
      totalSubjects s' = totalSubjects s + 1 ∧
      (s'.nodes c).enrollmentCount = (s.nodes c).enrollmentCount + 1 := by
  refine ⟨_, enrollSubject_ok s c t id h d cid bt hc hid hh hex, ?_, ?_, ?_, ?_⟩
  · simp [checkSubjectStatus, upd]
  · simp [upd]
  · simp [totalSubjects]
  · simp [upd]

/-- C1 witness: at the deployment state, owner 1 enrolls subject 7 with hash 5. -/
theorem C1_enroll_then_status_ok_witness :
    canEnroll st0 1 = true ∧ (7 : B32) ≠ 0 ∧ (5 : B32) ≠ 0 ∧
    st0.subjectExistsMap 7 = false ∧
    (∃ s', enrollSubject st0 1 1 7 5 [3] emptyStr BiometricType.FACIAL = Except.ok s' ∧
      checkSubjectStatus s' 7 = (true, true) ∧
      (s'.subjects 7).isActive = true ∧
      totalSubjects s' = totalSubjects st0 + 1 ∧
      (s'.nodes 1).enrollmentCount = (st0.nodes 1).enrollmentCount + 1) :=
  ⟨by decide, by decide, by decide, by decide,
    C1_enroll_then_status_ok st0 1 1 7 5 [3] emptyStr BiometricType.FACIAL
      (by decide) (by decide) (by decide) (by decide)⟩

/-- C2 (amended): re-invoking enrollSubject for an id already in the ledger by
an authorized enrollment center always fails, and fails with the
duplicate-subject error whenever the supplied commitmentHash is nonzero (a
zero commitmentHash trips the invalid-argument check first, see the
counterexample); no operation ever removes the id from the existence map, so
this holds regardless of intervening updates or deactivations. -/
theorem C2_enroll_duplicate_fails (s : RegistryState) (c : Addr) (t : Nat)
    (id h : B32) (d : List Nat) (cid : String) (bt : BiometricType)
    (hc : canEnroll s c = true) (hid : id ≠ 0) (hh : h ≠ 0)
    (hex : s.subjectExistsMap id = true) :
    enrollSubject s c t id h d cid bt = Except.error RegError.subjectAlreadyExists ∧
    ∀ op, (step s op).subjectExistsMap id = true := by
  constructor
  · simp [enrollSubject, hc, hid, hh, hex]
  · intro op
    exact step_existsTrue s op id hex

/-- C2 witness: subject 7 exists in stA; re-enrolling it with different hash,
delta and type fails with the duplicate-subject error. -/
theorem C2_enroll_duplicate_fails_witness :
    canEnroll stA 1 = true ∧ (7 : B32) ≠ 0 ∧ (6 : B32) ≠ 0 ∧
    stA.subjectExistsMap 7 = true ∧
    (enrollSubject stA 1 9 7 6 [] emptyStr BiometricType.IRIS
        = Except.error RegError.subjectAlreadyExists ∧
      ∀ op, (step stA op).subjectExistsMap 7 = true) :=
  ⟨by decide, by decide, by decide, by decide,
    C2_enroll_duplicate_fails stA 1 9 7 6 [] emptyStr BiometricType.IRIS
      (by decide) (by decide) (by decide) (by decide)⟩

/-- C2 counterexample: subject 7 already exists in stA, yet re-enrolling it
with a zero commitmentHash is rejected with the invalid-commitment-hash error,
not the duplicate-subject error, because the zero-hash check precedes the
duplicate check in enrollSubject. -/
theorem C2_cex_zero_hash_not_duplicate :
    stA.subjectExistsMap 7 = true ∧
    enrollSubject stA 1 2 7 0 [] emptyStr BiometricType.FACIAL
      = Except.error RegError.invalidCommitmentHash ∧
    enrollSubject stA 1 2 7 0 [] emptyStr BiometricType.FACIAL
      ≠ Except.error RegError.subjectAlreadyExists := by
  have hval : enrollSubject stA 1 2 7 0 [] emptyStr BiometricType.FACIAL
      = Except.error RegError.invalidCommitmentHash := by rfl
  refine ⟨by decide, hval, ?_⟩
  rw [hval]
  simp

/-- C3: deactivateSubject then reactivateSubject by an authorized enrollment
center both succeed on an existing subject, end with isActive = true, leave
every other Subject field (commitmentHash, delta, templateCID, biometricType,
enrolledBy, enrolledAt) exactly as before, and touch nothing else in the
state: only isActive and updatedAt of that one subject change. -/
theorem C3_deactivate_reactivate_roundtrip (s : RegistryState) (c : Addr)
    (t1 t2 : Nat) (id : B32)
    (hc : canEnroll s c = true) (hex : s.subjectExistsMap id = true) :
    ∃ s1 s2, deactivateSubject s c t1 id = Except.ok s1 ∧
      reactivateSubject s1 c t2 id = Except.ok s2 ∧
      s2.subjects id = { s.subjects id with isActive := true, updatedAt := t2 } ∧
      (∀ j, j ≠ id → s2.subjects j = s.subjects j) ∧
      s2.owner = s.owner ∧ s2.subjectCount = s.subjectCount ∧
      s2.nodeCount = s.nodeCount ∧ s2.authRecordCount = s.authRecordCount ∧
      s2.nodes = s.nodes ∧ s2.authRecords = s.authRecords ∧
      s2.subjectExistsMap = s.subjectExistsMap ∧
      s2.nodeEnrollments = s.nodeEnrollments ∧
      s2.allSubjectIds = s.allSubjectIds ∧
      s2.allNodeAddresses = s.allNodeAddresses := by
  have hd := deactivateSubject_ok s c t1 id hc hex
  have hr := reactivateSubject_ok { s with
      subjects := upd s.subjects id
        { s.subjects id with isActive := false, updatedAt := t1 } } c t2 id hc hex
  refine ⟨_, _, hd, hr, ?_, ?_, rfl, rfl, rfl, rfl, rfl, rfl, rfl, rfl, rfl, rfl⟩
  · simp [upd]
  · intro j hj
    simp [upd, hj]

/-- C3 witness: round trip on subject 7 in stA by the owner. -/
theorem C3_deactivate_reactivate_roundtrip_witness :
    canEnroll stA 1 = true ∧ stA.subjectExistsMap 7 = true ∧
    (∃ s1 s2, deactivateSubject stA 1 3 7 = Except.ok s1 ∧
      reactivateSubject s1 1 4 7 = Except.ok s2 ∧
      s2.subjects 7 = { stA.subjects 7 with isActive := true, updatedAt := 4 } ∧
      (∀ j, j ≠ 7 → s2.subjects j = stA.subjects j) ∧
      s2.owner = stA.owner ∧ s2.subjectCount = stA.subjectCount ∧
      s2.nodeCount = stA.nodeCount ∧ s2.authRecordCount = stA.authRecordCount ∧
      s2.nodes = stA.nodes ∧ s2.authRecords = stA.authRecords ∧
      s2.subjectExistsMap = stA.subjectExistsMap ∧
      s2.nodeEnrollments = stA.nodeEnrollments ∧
      s2.allSubjectIds = stA.allSubjectIds ∧
      s2.allNodeAddresses = stA.allNodeAddresses) :=
  ⟨by decide, by decide,
    C3_deactivate_reactivate_roundtrip stA 1 3 4 7 (by decide) (by decide)⟩

/-- C4: for an authorized caller and an existing subject, verifyCommitment on
an active subject returns ok true exactly when the provided hash equals the
stored commitmentHash and ok false (not an error) exactly when it differs,
while on an inactive subject it fails with the subject-not-active error. -/
theorem C4_verifyCommitment_spec (s : RegistryState) (c : Addr) (id h : B32)
    (hauth : isAuthNode s c = true) (hex : s.subjectExistsMap id = true) :
    ((s.subjects id).isActive = true →
      (verifyCommitment s c id h = Except.ok true ↔
        (s.subjects id).commitmentHash = h) ∧
      (verifyCommitment s c id h = Except.ok false ↔
        (s.subjects id).commitmentHash ≠ h)) ∧
    ((s.subjects id).isActive = false →
      verifyCommitment s c id h = Except.error RegError.subjectNotActive) := by
  constructor
  · intro hact
    constructor
    · simp [verifyCommitment, hauth, hex, hact]
    · simp [verifyCommitment, hauth, hex, hact]
  · intro hina
    simp [verifyCommitment, hauth, hex, hina]

/-- C4 witness: in stA, subject 7 is active with stored hash 5. -/
theorem C4_verifyCommitment_spec_witness :
    isAuthNode stA 1 = true ∧ stA.subjectExistsMap 7 = true ∧
    (((stA.subjects 7).isActive = true →
      (verifyCommitment stA 1 7 5 = Except.ok true ↔
        (stA.subjects 7).commitmentHash = 5) ∧
      (verifyCommitment stA 1 7 5 = Except.ok false ↔
        (stA.subjects 7).commitmentHash ≠ 5)) ∧
    ((stA.subjects 7).isActive = false →
      verifyCommitment stA 1 7 5 = Except.error RegError.subjectNotActive)) :=
  ⟨by decide, by decide, C4_verifyCommitment_spec stA 1 7 5 (by decide) (by decide)⟩

/-- C5: a caller whose node record has isAuthorized = false (including an
address with no record at all, whose record is the zero Node) is rejected by
verifyCommitment, getSubject and logAuthentication with the authorized-node
modifier error, and by enrollSubject with the enrollment-center modifier
error; both errors are the spec's Unauthorized kind, and the rejected
enrollment leaves the whole state (hence the subject ledger and the total
subject count) unchanged. -/
theorem C5_unauthorized_rejections (s : RegistryState) (c : Addr)
    (hun : (s.nodes c).isAuthorized = false) :
    (∀ id h, verifyCommitment s c id h = Except.error RegError.notAuthorizedNode) ∧
    (∀ id, getSubject s c id = Except.error RegError.notAuthorizedNode) ∧
    (∀ t id ok r, logAuthentication s c t id ok r
        = Except.error RegError.notAuthorizedNode) ∧
    (∀ t id h d cid bt, enrollSubject s c t id h d cid bt
        = Except.error RegError.notEnrollmentCenter) ∧
    (∀ t id h d cid bt, step s (Op.enroll c t id h d cid bt) = s) ∧
    RegError.notAuthorizedNode.isUnauthorized = true ∧
    RegError.notEnrollmentCenter.isUnauthorized = true := by
  refine ⟨?_, ?_, ?_, ?_, ?_, rfl, rfl⟩
  · intro id h
    simp [verifyCommitment, isAuthNode, hun]
  · intro id
    simp [getSubject, isAuthNode, hun]
  · intro t id ok r
    simp [logAuthentication, isAuthNode, hun]
  · intro t id h d cid bt
    simp [enrollSubject, canEnroll, hun]
  · intro t id h d cid bt
    simp [step, enrollSubject, canEnroll, hun]

/-- C5 witness: address 99 has no node record in stA. -/
theorem C5_unauthorized_rejections_witness :
    (stA.nodes 99).isAuthorized = false ∧
    ((∀ id h, verifyCommitment stA 99 id h
        = Except.error RegError.notAuthorizedNode) ∧
    (∀ id, getSubject stA 99 id = Except.error RegError.notAuthorizedNode) ∧
    (∀ t id ok r, logAuthentication stA 99 t id ok r
        = Except.error RegError.notAuthorizedNode) ∧
    (∀ t id h d cid bt, enrollSubject stA 99 t id h d cid bt
        = Except.error RegError.notEnrollmentCenter) ∧
    (∀ t id h d cid bt, step stA (Op.enroll 99 t id h d cid bt) = stA) ∧
    RegError.notAuthorizedNode.isUnauthorized = true ∧
    RegError.notEnrollmentCenter.isUnauthorized = true) :=
  ⟨by decide, C5_unauthorized_rejections stA 99 (by decide)⟩

/-- C6: the audit log is append-only with strictly increasing gapless 1-based
ids: any record already in range survives any later operation sequence
unchanged, the counter never decreases, each single operation bumps it by at
most one, and a successful logAuthentication assigns exactly the next id
(old count + 1), stores the new record there, and touches no earlier record. -/
theorem C6_audit_log_append_only (s : RegistryState) (ops : List Op) (i : Nat)
    (h1 : 1 ≤ i) (h2 : i ≤ s.authRecordCount) :
    (execOps s ops).authRecords i = s.authRecords i ∧
    s.authRecordCount ≤ (execOps s ops).authRecordCount ∧
    (∀ op, (step s op).authRecordCount = s.authRecordCount ∨
      (step s op).authRecordCount = s.authRecordCount + 1) ∧
    (∀ c t sid ok r s', logAuthentication s c t sid ok r = Except.ok s' →
      s'.authRecordCount = s.authRecordCount + 1 ∧
      s'.authRecords s'.authRecordCount =
        { subjectId := sid, verifier := c, success := ok, reason := r,
          timestamp := t } ∧
      ∀ j, j ≤ s.authRecordCount → s'.authRecords j = s.authRecords j) := by
  refine ⟨execOps_authRecords_preserved ops s i h2,
    execOps_authRecordCount_mono ops s,
    fun op => step_authRecordCount s op, ?_⟩
  intro c t sid ok r s' heq
  obtain ⟨ha, hb, _⟩ := logAuthentication_fields _ _ _ _ _ _ _ heq
  refine ⟨ha, ?_, ?_⟩
  · rw [ha, hb, upd_same]
  · intro j hj
    rw [hb, upd_other]
    omega

/-- C6 witness: stB holds one audit record; id 1 survives a later operation. -/
theorem C6_audit_log_append_only_witness :
    1 ≤ 1 ∧ 1 ≤ stB.authRecordCount ∧
    ((execOps stB [Op.deactivate 1 3 7]).authRecords 1 = stB.authRecords 1 ∧
    stB.authRecordCount ≤ (execOps stB [Op.deactivate 1 3 7]).authRecordCount ∧
    (∀ op, (step stB op).authRecordCount = stB.authRecordCount ∨
      (step stB op).authRecordCount = stB.authRecordCount + 1) ∧
    (∀ c t sid ok r s', logAuthentication stB c t sid ok r = Except.ok s' →
      s'.authRecordCount = stB.authRecordCount + 1 ∧
      s'.authRecords s'.authRecordCount =
        { subjectId := sid, verifier := c, success := ok, reason := r,
          timestamp := t } ∧
      ∀ j, j ≤ stB.authRecordCount → s'.authRecords j = stB.authRecords j)) :=
  ⟨by decide, by decide,
    C6_audit_log_append_only stB [Op.deactivate 1 3 7] 1 (by decide) (by decide)⟩

theorem setNodeAuthorization_ok (s : RegistryState) (c a : Addr) (b : Bool)
    (hc : canEnroll s c = true) (h0 : (s.nodes a).nodeAddress ≠ 0)
    (hown : a ≠ s.owner) :
    setNodeAuthorization s c a b = Except.ok { s with
      nodes := upd s.nodes a { s.nodes a with isAuthorized := b } } := by
  simp [setNodeAuthorization, hc, h0, hown]

/-- C7: setNodeAuthorization by an authorized enrollment center fails with the
node-not-found error when no node record exists at the address (zero stored
address), fails with the cannot-modify-owner error when the address is the
current owner — hence the owner's isAuthorized flag can never be changed
through it — and on any other registered node it sets isAuthorized to the
given flag, leaving all other nodes untouched. -/
theorem C7_setNodeAuthorization_spec (s : RegistryState) (c a : Addr) (b : Bool)
    (hc : canEnroll s c = true) :
    ((s.nodes a).nodeAddress = 0 →
      setNodeAuthorization s c a b = Except.error RegError.nodeNotFound) ∧
    ((s.nodes a).nodeAddress ≠ 0 → a = s.owner →
      setNodeAuthorization s c a b = Except.error RegError.cannotModifyOwner) ∧
    (∀ c' b' s', setNodeAuthorization s c' s.owner b' ≠ Except.ok s') ∧
    ((s.nodes a).nodeAddress ≠ 0 → a ≠ s.owner →
      ∃ s', setNodeAuthorization s c a b = Except.ok s' ∧
        (s'.nodes a).isAuthorized = b ∧
        ∀ j, j ≠ a → s'.nodes j = s.nodes j) := by
  refine ⟨?_, ?_, ?_, ?_⟩
  · intro h0
    simp [setNodeAuthorization, hc, h0]
  · intro h0 hown
    subst hown
    simp [setNodeAuthorization, hc, h0]
  · intro c' b' s'
    by_cases hc' : canEnroll s c' = true
    · by_cases h0 : (s.nodes s.owner).nodeAddress = 0
      · simp [setNodeAuthorization, hc', h0]
      · simp [setNodeAuthorization, hc', h0]
    · simp [setNodeAuthorization, hc']
  · intro h0 hown
    refine ⟨_, setNodeAuthorization_ok s c a b hc h0 hown, ?_, ?_⟩
    · simp [upd]
    · intro j hj
      simp [upd, hj]

/-- C7 witness: in stA, address 99 has no node record, and the owner's flag is
untouchable. -/
theorem C7_setNodeAuthorization_spec_witness :
    canEnroll stA 1 = true ∧
    (((stA.nodes 99).nodeAddress = 0 →
      setNodeAuthorization stA 1 99 false = Except.error RegError.nodeNotFound) ∧
    ((stA.nodes 99).nodeAddress ≠ 0 → (99 : Addr) = stA.owner →
      setNodeAuthorization stA 1 99 false
        = Except.error RegError.cannotModifyOwner) ∧
    (∀ c' b' s', setNodeAuthorization stA c' stA.owner b' ≠ Except.ok s') ∧
    ((stA.nodes 99).nodeAddress ≠ 0 → (99 : Addr) ≠ stA.owner →
      ∃ s', setNodeAuthorization stA 1 99 false = Except.ok s' ∧
        (s'.nodes 99).isAuthorized = false ∧
        ∀ j, j ≠ 99 → s'.nodes j = stA.nodes j)) :=
  ⟨by decide, C7_setNodeAuthorization_spec stA 1 99 false (by decide)⟩

theorem transferOwnership_ok (s : RegistryState) (a : Addr) (h0 : a ≠ 0) :
    transferOwnership s s.owner a = Except.ok { s with
      owner := a
      nodes := upd (upd (upd s.nodes a (s.nodes s.owner)) a
        { (upd s.nodes a (s.nodes s.owner)) a with nodeAddress := a })
        s.owner Node.zero
      allNodeAddresses := s.allNodeAddresses ++ [a] } := by
  simp [transferOwnership, h0]

/-- C8 counterexample: transferring ownership from owner 1 to address 1 itself
satisfies the claim's stated preconditions (owner caller, nonzero newOwner),
but afterwards newOwner holds no enrollment authority at all: the trailing
delete of the old address's record zeroes the record just copied, so the
claimed copy-then-delete outcome fails and newOwner cannot enroll. -/
theorem C8_cex_self_transfer :
    st0.owner = 1 ∧ (1 : Addr) ≠ 0 ∧
    (Except.toOption (transferOwnership st0 1 1)).map (fun s => canEnroll s 1)
      = some false ∧
    (Except.toOption (transferOwnership st0 1 1)).map
      (fun s => s.nodes 1 = Node.zero) = some True := by
  refine ⟨rfl, by decide, by rfl, ?_⟩
  have hres : (Except.toOption (transferOwnership st0 1 1)).map
      (fun s => decide (s.nodes 1 = Node.zero)) = some true := by decide
  simp only [Option.map] at hres ⊢
  cases hmatch : Except.toOption (transferOwnership st0 1 1) with
  | none => rw [hmatch] at hres; exact Option.noConfusion hres
  | some s1 =>
      rw [hmatch] at hres
      simp only [Option.some.injEq] at hres ⊢
      exact eq_true (of_decide_eq_true hres)

/-- C8 (amended): provided newOwner is nonzero and distinct from the current
owner, transferOwnership by the owner copies the owner's node record to
newOwner with its address field updated, deletes the record at the old
address, appends newOwner to the node enumeration without removing the old
address, and makes newOwner the owner; afterwards the old owner's
enrollSubject fails with the enrollment-center modifier error while newOwner
(whose record inherits the old owner's authorized enrollment-center flags)
holds the enrollment-authority capability. Any non-owner caller is rejected. -/
theorem C8_transferOwnership_spec (s : RegistryState) (a : Addr)
    (h0 : a ≠ 0) (hne : a ≠ s.owner)
    (hflag : (s.nodes s.owner).isAuthorized = true)
    (hec : (s.nodes s.owner).isEnrollmentCenter = true) :
    ∃ s', transferOwnership s s.owner a = Except.ok s' ∧
      s'.owner = a ∧
      s'.nodes a = { s.nodes s.owner with nodeAddress := a } ∧
      s'.nodes s.owner = Node.zero ∧
      s'.allNodeAddresses = s.allNodeAddresses ++ [a] ∧
      canEnroll s' a = true ∧
      (∀ t id h d cid bt, enrollSubject s' s.owner t id h d cid bt
          = Except.error RegError.notEnrollmentCenter) ∧
      (∀ c, c ≠ s.owner → ∀ s'', transferOwnership s c a ≠ Except.ok s'') := by
  refine ⟨_, transferOwnership_ok s a h0, rfl, ?_, ?_, rfl, ?_, ?_, ?_⟩
  · simp [upd, hne]
  · simp [upd]
  · simp [canEnroll, upd, hne, hflag, hec]
  · intro t id h d cid bt
    simp [enrollSubject, canEnroll, upd, Node.zero]
  · intro c hcn s''
    simp [transferOwnership, hcn]

/-- C8 witness: owner 1 of st0 transfers ownership to fresh address 2. -/
theorem C8_transferOwnership_spec_witness :
    (2 : Addr) ≠ 0 ∧ (2 : Addr) ≠ st0.owner ∧
    (st0.nodes st0.owner).isAuthorized = true ∧
    (st0.nodes st0.owner).isEnrollmentCenter = true ∧
    (∃ s', transferOwnership st0 st0.owner 2 = Except.ok s' ∧
      s'.owner = 2 ∧
      s'.nodes 2 = { st0.nodes st0.owner with nodeAddress := 2 } ∧
      s'.nodes st0.owner = Node.zero ∧
      s'.allNodeAddresses = st0.allNodeAddresses ++ [2] ∧
      canEnroll s' 2 = true ∧
      (∀ t id h d cid bt, enrollSubject s' st0.owner t id h d cid bt
          = Except.error RegError.notEnrollmentCenter) ∧
      (∀ c, c ≠ st0.owner → ∀ s'', transferOwnership st0 c 2 ≠ Except.ok s'')) :=
  ⟨by decide, by decide, by decide, by decide,
    C8_transferOwnership_spec st0 2 (by decide) (by decide) (by decide) (by decide)⟩

theorem registerNode_ok (s : RegistryState) (c : Addr) (t : Nat) (a : Addr)
    (n : String) (e : Bool)
    (hc : canEnroll s c = true) (h0 : a ≠ 0)
    (hnew : (s.nodes a).nodeAddress = 0) :
    registerNode s c t a n e = Except.ok { s with
      nodeCount := s.nodeCount + 1
      nodes := upd s.nodes a
        { nodeId := s.nodeCount + 1, name := n, nodeAddress := a,
          isEnrollmentCenter := e, isAuthorized := true, registeredAt := t,
          enrollmentCount := 0 }
      allNodeAddresses := s.allNodeAddresses ++ [a] } := by
  simp [registerNode, hc, h0, hnew]

theorem logAuthentication_ok (s : RegistryState) (c : Addr) (t : Nat)
    (sid : B32) (ok : Bool) (r : String) (hauth : isAuthNode s c = true) :
    logAuthentication s c t sid ok r = Except.ok { s with
      authRecordCount := s.authRecordCount + 1
      authRecords := upd s.authRecords (s.authRecordCount + 1)
        { subjectId := sid, verifier := c, success := ok, reason := r,
          timestamp := t } } := by
  simp [logAuthentication, hauth]

theorem verifyCommitment_auth_not_unauthorized (s : RegistryState) (c : Addr)
    (id h : B32) (hauth : isAuthNode s c = true) :
    verifyCommitment s c id h ≠ Except.error RegError.notAuthorizedNode := by
  simp only [verifyCommitment, hauth, if_true]
  split
  · split <;> simp
  · simp

theorem getSubject_auth_not_unauthorized (s : RegistryState) (c : Addr)
    (id : B32) (hauth : isAuthNode s c = true) :
    getSubject s c id ≠ Except.error RegError.notAuthorizedNode := by
  simp only [getSubject, hauth, if_true]
  split
  · split <;> simp
  · simp

/-- C9: registerNode always creates the node with isAuthorized = true, whether
it is registered as an enrollment center or not, so the fresh node immediately
passes the authorized-node check of every authorized reader: its
logAuthentication succeeds, and its verifyCommitment and getSubject calls can
never fail with the authorized-node modifier error. -/
theorem C9_registered_node_immediately_authorized (s : RegistryState)
    (c : Addr) (t : Nat) (a : Addr) (n : String) (e : Bool)
    (hc : canEnroll s c = true) (h0 : a ≠ 0)
    (hnew : (s.nodes a).nodeAddress = 0) :
    ∃ s', registerNode s c t a n e = Except.ok s' ∧
      (s'.nodes a).isAuthorized = true ∧
      isAuthNode s' a = true ∧
      (∀ t' id ok r, ∃ s'', logAuthentication s' a t' id ok r = Except.ok s'') ∧
      (∀ id h, verifyCommitment s' a id h
          ≠ Except.error RegError.notAuthorizedNode) ∧
      (∀ id, getSubject s' a id ≠ Except.error RegError.notAuthorizedNode) := by
  have hauth : isAuthNode { s with
      nodeCount := s.nodeCount + 1
      nodes := upd s.nodes a
        { nodeId := s.nodeCount + 1, name := n, nodeAddress := a,
          isEnrollmentCenter := e, isAuthorized := true, registeredAt := t,
          enrollmentCount := 0 }
      allNodeAddresses := s.allNodeAddresses ++ [a] } a = true := by
    simp [isAuthNode, upd]
  refine ⟨_, registerNode_ok s c t a n e hc h0 hnew, ?_, hauth, ?_, ?_, ?_⟩
  · simp [upd]
  · intro t' id ok r
    exact ⟨_, logAuthentication_ok _ a t' id ok r hauth⟩
  · intro id h
    exact verifyCommitment_auth_not_unauthorized _ a id h hauth
  · intro id
    exact getSubject_auth_not_unauthorized _ a id hauth

/-- C9 witness: the owner registers address 2 as an authentication-only node
(isEnrollmentCenter = false) in stA. -/
theorem C9_registered_node_immediately_authorized_witness :
    canEnroll stA 1 = true ∧ (2 : Addr) ≠ 0 ∧ (stA.nodes 2).nodeAddress = 0 ∧
    (∃ s', registerNode stA 1 2 2 emptyStr false = Except.ok s' ∧
      (s'.nodes 2).isAuthorized = true ∧
      isAuthNode s' 2 = true ∧
      (∀ t' id ok r, ∃ s'', logAuthentication s' 2 t' id ok r = Except.ok s'') ∧
      (∀ id h, verifyCommitment s' 2 id h
          ≠ Except.error RegError.notAuthorizedNode) ∧
      (∀ id, getSubject s' 2 id ≠ Except.error RegError.notAuthorizedNode)) :=
  ⟨by decide, by decide, by decide,
    C9_registered_node_immediately_authorized stA 1 2 2 emptyStr false
      (by decide) (by decide) (by decide)⟩

theorem updateSubject_ok (s : RegistryState) (c : Addr) (t : Nat)
    (id h : B32) (d : List Nat) (cid : String)
    (hc : canEnroll s c = true) (hex : s.subjectExistsMap id = true)
    (hact : (s.subjects id).isActive = true) (hh : h ≠ 0) :
    updateSubject s c t id h d cid = Except.ok { s with
      subjects := upd s.subjects id
        { s.subjects id with
          commitmentHash := h, delta := d,
          templateCID := cid, updatedAt := t } } := by
  simp [updateSubject, hc, hex, hact, hh]

/-- C10: enrolledBy confers no exclusive rights: an authorized enrollment
center succeeds with updateSubject (given activity and a nonzero hash),
deactivateSubject and reactivateSubject on an existing subject that was
enrolled by a different node; authorization depends only on the caller's role
flags, never on the subject's enrolledBy field. -/
theorem C10_no_enroller_exclusivity (s : RegistryState) (c : Addr)
    (t : Nat) (id h : B32) (d : List Nat) (cid : String)
    (hc : canEnroll s c = true) (hex : s.subjectExistsMap id = true)
    (hdiff : (s.subjects id).enrolledBy ≠ c) :
    ((s.subjects id).isActive = true → h ≠ 0 →
      ∃ s', updateSubject s c t id h d cid = Except.ok s') ∧
    (∃ s', deactivateSubject s c t id = Except.ok s') ∧
    (∃ s', reactivateSubject s c t id = Except.ok s') := by
  refine ⟨?_, ⟨_, deactivateSubject_ok s c t id hc hex⟩,
    ⟨_, reactivateSubject_ok s c t id hc hex⟩⟩
  intro hact hh
  exact ⟨_, updateSubject_ok s c t id h d cid hc hex hact hh⟩

/-- C10 witness: in stC, node 2 (a second enrollment center) operates on
subject 7, which node 1 enrolled. -/
theorem C10_no_enroller_exclusivity_witness :
    canEnroll stC 2 = true ∧ stC.subjectExistsMap 7 = true ∧
    (stC.subjects 7).enrolledBy ≠ 2 ∧
    (((stC.subjects 7).isActive = true → (9 : B32) ≠ 0 →
      ∃ s', updateSubject stC 2 5 7 9 [] emptyStr = Except.ok s') ∧
    (∃ s', deactivateSubject stC 2 5 7 = Except.ok s') ∧
    (∃ s', reactivateSubject stC 2 5 7 = Except.ok s')) :=
  ⟨by decide, by decide, by decide,
    C10_no_enroller_exclusivity stC 2 5 7 9 [] emptyStr
      (by decide) (by decide) (by decide)⟩
